import Mathlib

/-!
Verification of the internship-discovery-engine filtering pipeline.

Shallow embedding of the Python modules `models.py`, `deduplication.py`,
`location_filter.py`, `categorization.py`, `tracks.py`, `active_check.py`
and the filtering loop of `cli.py::cmd_run`.  Python strings are Lean
`String`s; Python `str.lower` / `str.strip` / the `in` operator are embedded
below for the ASCII fragment that all fields in this code base use;
`datetime.date` is a year/month/day triple ordered lexicographically, which
is exactly Python's `date` ordering.  `hashlib.sha256(...).hexdigest()` is
embedded as a full executable SHA-256 (FIPS 180-4) over the UTF-8 bytes.
-/

namespace InternshipEngine

/-! ## Python string primitives -/

/-- ASCII fragment of Python `str.lower` on one character: `A`..`Z` map to
`a`..`z`, everything else is unchanged. -/
def lowerChar (c : Char) : Char :=
  if 65 ≤ c.toNat ∧ c.toNat ≤ 90 then Char.ofNat (c.toNat + 32) else c

/-- Python `str.lower` (ASCII fragment). -/
def pyLower (s : String) : String := String.mk (s.data.map lowerChar)

/-- Python whitespace, as stripped by `str.strip()`: space, `\t`, `\n`,
`\r`, `\x0b`, `\x0c`.  Note that `\x00` is NOT whitespace for Python. -/
def isPyWs (c : Char) : Bool :=
  c = ' ' || c = '\t' || c = '\n' || c = '\x0d' || c = '\x0b' || c = '\x0c'

/-- Python `str.strip()`: drop leading and trailing whitespace. -/
def pyStrip (s : String) : String :=
  String.mk (((s.data.dropWhile isPyWs).reverse.dropWhile isPyWs).reverse)

/-- Contiguous-subsequence test on character lists, the semantics of the
Python `in` operator on strings (`needle in hay`). -/
def inChars (needle : List Char) : List Char → Bool
  | [] => needle.isEmpty
  | c :: t => needle.isPrefixOf (c :: t) || inChars needle t

/-- Python `needle in hay` on strings. -/
def pyIn (needle hay : String) : Bool := inChars needle.data hay.data

/-! ## Data model (`models.py`) -/

/-- Embedding of `models.Category`: high-level category assigned to a job posting. -/
inductive Category where
  | SOFTWARE
  | DATA
  | PRODUCT
  | DESIGN
  | FINANCE
  | MARKETING
  | OTHER
deriving DecidableEq, Repr

/-- The `.value` string of each `Category` enum member. -/
def Category.value : Category → String
  | .SOFTWARE => "software"
  | .DATA => "data"
  | .PRODUCT => "product"
  | .DESIGN => "design"
  | .FINANCE => "finance"
  | .MARKETING => "marketing"
  | .OTHER => "other"

/-- Embedding of `models.DatePostedConfidence`: reliability of the `date_posted` field. -/
inductive DatePostedConfidence where
  | EXACT
  | ESTIMATED
  | UNKNOWN
deriving DecidableEq, Repr

/-- A Python `datetime.date` value. -/
structure PyDate where
  year : Nat
  month : Nat
  day : Nat
deriving DecidableEq, Repr

/-- Python `date` comparison `d1 < d2`: lexicographic on (year, month, day). -/
def pyDateLt (d1 d2 : PyDate) : Bool :=
  d1.year < d2.year ||
    (d1.year == d2.year &&
      (d1.month < d2.month || (d1.month == d2.month && d1.day < d2.day)))

/-- Embedding of `models.JobPosting`: the central entity.  Field names and defaults follow
the pydantic model; `posting_url` is the posting's URL (documented in the
source as "Canonical URL of the listing page. Used as dedup key"). -/
structure JobPosting where
  title : String
  company : String
  location : String
  description : String := ""
  posting_url : String
  apply_url : Option String := none
  date_posted : Option PyDate := none
  date_posted_confidence : DatePostedConfidence := .UNKNOWN
  source : String := ""
  category : Option Category := none
  is_remote : Bool := false
deriving DecidableEq, Repr

/-- The pydantic validation pipeline run at `JobPosting` construction:
the `_strip` field validator strips `title`, `company` and `location`, then
the `_infer_remote` model validator sets `is_remote` when `"remote"` occurs
in the lower-cased location.  The argument is the raw (pre-validation) field
record, the result the constructed posting. -/
def JobPosting.make (raw : JobPosting) : JobPosting :=
  let stripped : JobPosting :=
    { raw with
        title := pyStrip raw.title
        company := pyStrip raw.company
        location := pyStrip raw.location }
  if !stripped.is_remote && pyIn "remote" (pyLower stripped.location) then
    { stripped with is_remote := true }
  else
    stripped

/-! ## SHA-256 (FIPS 180-4), the meaning of `hashlib.sha256(...).hexdigest()`

Bytes and 32-bit words are `Nat`s kept below `2 ^ 8` / `2 ^ 32` by explicit
reduction. -/

/-- Truncate to a 32-bit word. -/
def w32 (n : Nat) : Nat := n % 4294967296

/-- Right-rotation of a 32-bit word. -/
def rotr (k x : Nat) : Nat := w32 ((x >>> k) ||| (x <<< (32 - k)))

/-- Bitwise complement of a 32-bit word. -/
def compl32 (x : Nat) : Nat := x ^^^ 4294967295

/-- SHA-256 `Ch` function. -/
def shaCh (x y z : Nat) : Nat := (x &&& y) ^^^ (compl32 x &&& z)

/-- SHA-256 `Maj` function. -/
def shaMaj (x y z : Nat) : Nat := (x &&& y) ^^^ (x &&& z) ^^^ (y &&& z)

/-- SHA-256 big Sigma-0. -/
def bsig0 (x : Nat) : Nat := rotr 2 x ^^^ rotr 13 x ^^^ rotr 22 x

/-- SHA-256 big Sigma-1. -/
def bsig1 (x : Nat) : Nat := rotr 6 x ^^^ rotr 11 x ^^^ rotr 25 x

/-- SHA-256 small sigma-0. -/
def ssig0 (x : Nat) : Nat := rotr 7 x ^^^ rotr 18 x ^^^ (x >>> 3)

/-- SHA-256 small sigma-1. -/
def ssig1 (x : Nat) : Nat := rotr 17 x ^^^ rotr 19 x ^^^ (x >>> 10)

/-- The 64 SHA-256 round constants (FIPS 180-4 section 4.2.2, in decimal). -/
def shaK : List Nat :=
  [1116352408, 1899447441, 3049323471, 3921009573, 961987163,
   1508970993, 2453635748, 2870763221, 3624381080, 310598401,
   607225278, 1426881987, 1925078388, 2162078206, 2614888103,
   3248222580, 3835390401, 4022224774, 264347078, 604807628,
   770255983, 1249150122, 1555081692, 1996064986, 2554220882,
   2821834349, 2952996808, 3210313671, 3336571891, 3584528711,
   113926993, 338241895, 666307205, 773529912, 1294757372,
   1396182291, 1695183700, 1986661051, 2177026350, 2456956037,
   2730485921, 2820302411, 3259730800, 3345764771, 3516065817,
   3600352804, 4094571909, 275423344, 430227734, 506948616,
   659060556, 883997877, 958139571, 1322822218, 1537002063,
   1747873779, 1955562222, 2024104815, 2227730452, 2361852424,
   2428436474, 2756734187, 3204031479, 3329325298]

/-- The eight 32-bit working variables of the SHA-256 state. -/
structure Hash8 where
  a : Nat
  b : Nat
  c : Nat
  d : Nat
  e : Nat
  f : Nat
  g : Nat
  h : Nat
deriving Repr

/-- SHA-256 initial hash value (FIPS 180-4 section 5.3.3, in decimal). -/
def shaH0 : Hash8 :=
  ⟨1779033703, 3144134277, 1013904242, 2773480762,
   1359893119, 2600822924, 528734635, 1541459225⟩

/-- The big-endian 8-byte encoding of a message length in bits. -/
def lenBE8 (n : Nat) : List Nat :=
  [(n >>> 56) % 256, (n >>> 48) % 256, (n >>> 40) % 256, (n >>> 32) % 256,
   (n >>> 24) % 256, (n >>> 16) % 256, (n >>> 8) % 256, n % 256]

/-- SHA-256 message padding: append `0x80`, zeros up to 56 mod 64, then the
bit length as 8 big-endian bytes. -/
def padBytes (msg : List Nat) : List Nat :=
  msg ++ 0x80 :: List.replicate ((119 - msg.length % 64) % 64) 0
    ++ lenBE8 (8 * msg.length)

/-- Split a byte list into 64-byte blocks, with a structural fuel argument so
the definition reduces inside the kernel (the fuel is always sufficient:
every recursive step drops 64 bytes, hence at least one). -/
def toBlocksN : Nat → List Nat → List (List Nat)
  | 0, _ => []
  | fuel + 1, l => if l.isEmpty then [] else l.take 64 :: toBlocksN fuel (l.drop 64)

/-- Split a byte list into 64-byte blocks. -/
def toBlocks (l : List Nat) : List (List Nat) := toBlocksN l.length l

/-- Big-endian 32-bit word number `i` of a 64-byte block. -/
def wordAt (block : List Nat) (i : Nat) : Nat :=
  (block.getD (4 * i) 0) <<< 24 ||| (block.getD (4 * i + 1) 0) <<< 16 |||
    (block.getD (4 * i + 2) 0) <<< 8 ||| block.getD (4 * i + 3) 0

/-- The SHA-256 message schedule `W_0 .. W_63` of a block: the 16 block words
followed by 48 words formed from earlier schedule entries. -/
def schedW (block : List Nat) : List Nat :=
  (List.range 48).foldl
    (fun ws _ =>
      ws ++ [w32 (ssig1 (ws.getD (ws.length - 2) 0) + ws.getD (ws.length - 7) 0
        + ssig0 (ws.getD (ws.length - 15) 0) + ws.getD (ws.length - 16) 0)])
    ((List.range 16).map (wordAt block))

/-- One round of the SHA-256 compression function; `w` is the message
schedule of the current block. -/
def compressStep (w : List Nat) (st : Hash8) (t : Nat) : Hash8 :=
  let T1 := w32 (st.h + bsig1 st.e + shaCh st.e st.f st.g
    + shaK.getD t 0 + w.getD t 0)
  let T2 := w32 (bsig0 st.a + shaMaj st.a st.b st.c)
  ⟨w32 (T1 + T2), st.a, st.b, st.c, w32 (st.d + T1), st.e, st.f, st.g⟩

/-- Compress one 64-byte block into the running hash state. -/
def compressBlock (st : Hash8) (block : List Nat) : Hash8 :=
  let r := (List.range 64).foldl (compressStep (schedW block)) st
  ⟨w32 (st.a + r.a), w32 (st.b + r.b), w32 (st.c + r.c), w32 (st.d + r.d),
   w32 (st.e + r.e), w32 (st.f + r.f), w32 (st.g + r.g), w32 (st.h + r.h)⟩

/-- SHA-256 of a byte list. -/
def sha256 (msg : List Nat) : Hash8 :=
  (toBlocks (padBytes msg)).foldl compressBlock shaH0

/-- Lowercase hex digit of `n % 16`. -/
def hexChar (n : Nat) : Char :=
  match n % 16 with
  | 0 => '0' | 1 => '1' | 2 => '2' | 3 => '3'
  | 4 => '4' | 5 => '5' | 6 => '6' | 7 => '7'
  | 8 => '8' | 9 => '9' | 10 => 'a' | 11 => 'b'
  | 12 => 'c' | 13 => 'd' | 14 => 'e' | _ + 15 => 'f'

/-- The eight lowercase hex digits of a 32-bit word, most significant first. -/
def wordHex (w : Nat) : List Char :=
  [hexChar (w >>> 28), hexChar (w >>> 24), hexChar (w >>> 20),
   hexChar (w >>> 16), hexChar (w >>> 12), hexChar (w >>> 8),
   hexChar (w >>> 4), hexChar w]

/-- The 64-character lowercase hex rendering of a hash state, the meaning of
`.hexdigest()`. -/
def hexDigest (st : Hash8) : String :=
  String.mk (wordHex st.a ++ wordHex st.b ++ wordHex st.c ++ wordHex st.d
    ++ wordHex st.e ++ wordHex st.f ++ wordHex st.g ++ wordHex st.h)

/-- UTF-8 bytes of one character. -/
def utf8Char (c : Char) : List Nat :=
  let n := c.toNat
  if n < 0x80 then [n]
  else if n < 0x800 then
    [0xC0 ||| (n >>> 6), 0x80 ||| (n &&& 0x3F)]
  else if n < 0x10000 then
    [0xE0 ||| (n >>> 12), 0x80 ||| ((n >>> 6) &&& 0x3F), 0x80 ||| (n &&& 0x3F)]
  else
    [0xF0 ||| (n >>> 18), 0x80 ||| ((n >>> 12) &&& 0x3F),
     0x80 ||| ((n >>> 6) &&& 0x3F), 0x80 ||| (n &&& 0x3F)]

/-- Python `s.encode("utf-8")`. -/
def utf8Encode (cs : List Char) : List Nat := cs.flatMap utf8Char

/-- Embedding of `hashlib.sha256(s.encode("utf-8")).hexdigest()`. -/
def sha256hex (s : String) : String := hexDigest (sha256 (utf8Encode s.data))

/-! ## Deduplication (`deduplication.py`)

The fallible attribute access of Python is embedded with `Except String`:
`compute_hash` reads `posting.url`, but `models.JobPosting` declares no
field `url` (its URL field is `posting_url`), so on a pydantic model that
read raises `AttributeError` for every posting.  The functions below
propagate that error exactly where the source raises it. -/

/-- The Python error raised by the `posting.url` read in `compute_hash`. -/
def urlAttributeError : String :=
  "AttributeError: \x27JobPosting\x27 object has no attribute \x27url\x27"

/-- Embedding of the attribute read `posting.url` in
`deduplication.compute_hash`: `JobPosting` has no field `url`, so the read
fails with `AttributeError` on every posting. -/
def JobPosting.urlAttr (_ : JobPosting) : Except String String :=
  .error urlAttributeError

/-- One identity field of `compute_hash`, e.g. `posting.title.lower().strip()`. -/
def norm1 (s : String) : String := pyStrip (pyLower s)

/-- The identity string `compute_hash` builds from the three values it
reads: `_SEP.join([title.lower().strip(), company.lower().strip(),
url.lower().strip()])` with `_SEP = "\x00"`. -/
def canonicalStr (title company url : String) : String :=
  String.mk ((norm1 title).data ++ '\x00' ::
    ((norm1 company).data ++ '\x00' :: (norm1 url).data))

/-- Embedding of `deduplication.compute_hash`: evaluating the canonical
list reads `posting.url`, which raises `AttributeError` (the model's field
is `posting_url`); were the read to succeed, the result would be the
SHA-256 hex digest of the joined identity string. -/
def compute_hash (p : JobPosting) : Except String String :=
  match p.urlAttr with
  | .error e => .error e
  | .ok u => .ok (sha256hex (canonicalStr p.title p.company u))

/-- Embedding of `DuplicateFilter.is_new`: the state `seen` is the `_seen`
set of hash strings; the `compute_hash` call propagates its exception,
otherwise the boolean result is returned with the updated state. -/
def is_new (seen : List String) (p : JobPosting) :
    Except String (Bool × List String) :=
  match compute_hash p with
  | .error e => .error e
  | .ok h => if h ∈ seen then .ok (false, seen) else .ok (true, h :: seen)

/-- Embedding of `DuplicateFilter.filter_new`: keep the postings that are
new, recording each, propagating any exception from `is_new`; on success
returns the surviving postings and the final seen-state. -/
def filter_new (seen : List String) :
    List JobPosting → Except String (List JobPosting × List String)
  | [] => .ok ([], seen)
  | p :: ps =>
    match is_new seen p with
    | .error e => .error e
    | .ok (b, seen1) =>
      match filter_new seen1 ps with
      | .error e => .error e
      | .ok (out, seen2) => .ok (if b then p :: out else out, seen2)

/-! ## Location filter (`location_filter.py`) -/

/-- Embedding of `location_filter.LocationFilter`: immutable value object. -/
structure LocationFilter where
  allowed_locations : List String := []
  include_remote : Bool := true
deriving Repr

/-- Embedding of `LocationFilter.matches`: remote postings pass iff `include_remote`; an
empty allowed list accepts everything; otherwise case-insensitive substring
match of any allowed location against the posting's location. -/
def LocationFilter.matches (f : LocationFilter) (p : JobPosting) : Bool :=
  if p.is_remote then f.include_remote
  else if f.allowed_locations.isEmpty then true
  else f.allowed_locations.any (fun loc => pyIn (pyLower loc) (pyLower p.location))

/-! ## Date cutoff filter (`cli.py::cmd_run`, lines 191-198) -/

/-- The date-filter condition of `cmd_run`: a posting is skipped when a
cutoff is set, confidence is EXACT, a date is present, and the date is
strictly before the cutoff. -/
def dateCutoffExcludes (cutoff : Option PyDate) (p : JobPosting) : Bool :=
  match cutoff, p.date_posted with
  | some c, some d => p.date_posted_confidence == .EXACT && pyDateLt d c
  | _, _ => false

/-! ## Categorization (`categorization.py`) -/

/-- Embedding of `categorization._CATEGORY_KEYWORDS`: the ordered keyword registry.
Python dict insertion order is DATA, PRODUCT, DESIGN, FINANCE, MARKETING,
SOFTWARE (SOFTWARE intentionally last). -/
def CATEGORY_KEYWORDS : List (Category × List String) :=
  [(Category.DATA,
    ["data science", "machine learning", "deep learning",
     "artificial intelligence", "computer vision", "natural language", "nlp",
     "research scientist", "ml engineer", "data engineer", "data analyst",
     "analytics", "data"]),
   (Category.PRODUCT,
    ["product manager", "product management", "product owner",
     "program manager"]),
   (Category.DESIGN,
    ["user experience", "user interface", "ux researcher", "ux designer",
     "ui designer", "graphic designer", "visual designer", "design"]),
   (Category.FINANCE,
    ["quantitative", "investment banking", "financial analyst", "accounting",
     "finance", "trading", "quant"]),
   (Category.MARKETING,
    ["digital marketing", "content marketing", "growth marketing", "seo",
     "copywriting", "social media", "marketing"]),
   (Category.SOFTWARE,
    ["software engineer", "software developer", "backend", "frontend",
     "front-end", "back-end", "fullstack", "full-stack", "full stack",
     "devops", "site reliability", "sre", "platform engineer",
     "mobile developer", "ios developer", "android developer",
     "web developer", "api developer", "infrastructure engineer",
     "developer", "engineer"])]

/-- The haystack of `categorize`: `f"{posting.title} {posting.description}".lower()`. -/
def haystack (p : JobPosting) : String :=
  pyLower (p.title ++ " " ++ p.description)

/-- The ordered scan of `categorize`: first category with a matching keyword. -/
def scanCategories (hay : String) : List (Category × List String) → Category
  | [] => Category.OTHER
  | (c, kws) :: rest =>
    if kws.any (fun kw => pyIn kw hay) then c else scanCategories hay rest

/-- Embedding of `categorization.categorize`: first-match keyword classification over the
registry, falling back to `Category.OTHER`. -/
def categorize (p : JobPosting) : Category :=
  scanCategories (haystack p) CATEGORY_KEYWORDS

/-! ## Tracks (`tracks.py`) -/

/-- Embedding of `tracks.Track`: target domain track. -/
inductive Track where
  | CYBER
  | IT
  | SWE
  | DATA
  | ALL
deriving DecidableEq, Repr

/-- Strong keywords of each non-ALL track (`_TRACK_KEYWORDS[track]["strong"]`). -/
def strongKeywords : Track → List String
  | .CYBER =>
    ["cybersecurity", "cyber security", "information security", "infosec",
     "soc analyst", "soc intern", "penetration test", "pentest",
     "security analyst", "security engineer", "network security",
     "vulnerability", "threat intelligence", "malware", "forensics",
     "incident response", "security operations", "ethical hacking"]
  | .IT =>
    ["help desk", "helpdesk", "desktop support", "it support",
     "systems administrator", "sysadmin", "network administrator",
     "it analyst", "it technician", "it specialist", "service desk",
     "information technology intern"]
  | .SWE =>
    ["software engineer", "software developer", "swe intern",
     "backend engineer", "frontend engineer", "full stack", "fullstack",
     "web developer", "application developer", "mobile developer",
     "ios developer", "android developer", "devops", "site reliability",
     "platform engineer"]
  | .DATA =>
    ["data analyst", "data scientist", "data engineer",
     "business intelligence", "bi analyst", "machine learning", "ml engineer",
     "analytics engineer", "data analytics", "data science",
     "quantitative analyst"]
  | .ALL => []

/-- Weak keywords of each non-ALL track (`_TRACK_KEYWORDS[track]["weak"]`). -/
def weakKeywords : Track → List String
  | .CYBER => ["security", "cyber", "firewall", "compliance", "audit"]
  | .IT =>
    ["it intern", "tech support", "systems", "network", "infrastructure",
     "windows", "active directory", "hardware", "troubleshoot"]
  | .SWE =>
    ["developer", "programmer", "coding", "python", "java", "javascript",
     "react", "node", "backend", "frontend", "api", "kubernetes", "docker"]
  | .DATA =>
    ["data", "analytics", "sql", "etl", "tableau", "power bi", "pandas",
     "numpy", "statistics", "reporting", "dashboard"]
  | .ALL => []

/-- Embedding of `tracks._NEGATIVE_KEYWORDS`: shared penalty list. -/
def NEGATIVE_KEYWORDS : List String :=
  ["sales", "marketing", "real estate", "insurance", "retail", "cashier",
   "barista", "social media manager", "customer service", "store",
   "restaurant", "hospitality"]

/-- The `full_text` of `score_track`: lower-cased title, a space, and the
lower-cased description. -/
def fullText (p : JobPosting) : String :=
  pyLower p.title ++ " " ++ pyLower p.description

/-- Embedding of `tracks.score_track`: strong keywords score 10 in the title else 5 in the
description; weak keywords 3 / 1; each negative keyword found in
`full_text` subtracts `_PENALTY = 3`; the result is `max(0, score)`.
`Track.ALL` always returns 1. -/
def score_track (p : JobPosting) (track : Track) : Int :=
  if track = .ALL then 1
  else
    let title := pyLower p.title
    let desc := pyLower p.description
    let s1 : Int := (strongKeywords track).foldl
      (fun s kw => s + if pyIn kw title then 10 else if pyIn kw desc then 5 else 0) 0
    let s2 : Int := (weakKeywords track).foldl
      (fun s kw => s + if pyIn kw title then 3 else if pyIn kw desc then 1 else 0) s1
    let s3 : Int := NEGATIVE_KEYWORDS.foldl
      (fun s kw => s - if pyIn kw (fullText p) then 3 else 0) s2
    max 0 s3

/-! ## Active check (`active_check.py`)

Modelled from the spec in one respect: `active_check.py` imports
`ActiveStatus` from `internship_engine.models`, where no such class is
defined in the source tree; the spec describes the verdicts as
ACTIVE / INACTIVE / INDETERMINATE, and the code uses the member name
`UNKNOWN` for the indeterminate verdict, so the enum is reconstructed with
members ACTIVE, INACTIVE, UNKNOWN. -/

/-- Modelled from the spec: `models.ActiveStatus`, absent from `models.py`
though imported by `active_check.py`; members as used by the code, with
`UNKNOWN` being the spec's INDETERMINATE verdict. -/
inductive ActiveStatus where
  | ACTIVE
  | INACTIVE
  | UNKNOWN
deriving DecidableEq, Repr

/-- Embedding of `active_check.ActiveCheckResult`. -/
structure ActiveCheckResult where
  status : ActiveStatus
  reason : String := ""
deriving DecidableEq, Repr

/-- Embedding of `active_check._CLOSED_SIGNALS`, in order. -/
def CLOSED_SIGNALS : List String :=
  ["no longer available", "position has been filled", "job closed",
   "not accepting applications", "requisition closed",
   "this posting has expired", "job listing is no longer",
   "job has been filled", "position is no longer available",
   "this job is no longer", "listing has been removed",
   "role has been filled"]

/-- Embedding of `active_check._APPLY_SIGNALS`. -/
def APPLY_SIGNALS : List String :=
  ["apply now", "apply for this", "submit application", "apply online",
   "type=\"submit\""]

/-- The outcome of the single `session.get` call in `check_active`: a
timeout, another transport exception (with its message), or an HTTP
response with status code and body text. -/
inductive HttpOutcome where
  | timeout
  | reqError (msg : String)
  | response (code : Nat) (body : String)

/-- Embedding of `active_check.check_active` as a function of the request outcome:
exceptions map to UNKNOWN; 404/410 to INACTIVE; 401/403/429 to UNKNOWN;
>= 500 to UNKNOWN; 200 is scanned for closed signals (first match INACTIVE)
and otherwise ACTIVE with an apply-signal annotation; anything else UNKNOWN. -/
def check_active : HttpOutcome → ActiveCheckResult
  | .timeout => ⟨.UNKNOWN, "request timed out"⟩
  | .reqError msg => ⟨.UNKNOWN, "request failed: " ++ msg⟩
  | .response code body =>
    if code ∈ [404, 410] then ⟨.INACTIVE, "HTTP " ++ toString code⟩
    else if code ∈ [401, 403, 429] then
      ⟨.UNKNOWN, "HTTP " ++ toString code ++ " — page blocked"⟩
    else if 500 ≤ code then
      ⟨.UNKNOWN, "HTTP " ++ toString code ++ " server error"⟩
    else if code = 200 then
      match CLOSED_SIGNALS.find? (fun sig => pyIn sig (pyLower body)) with
      | some sig => ⟨.INACTIVE, "closed signal: \x27" ++ sig ++ "\x27"⟩
      | none =>
        if APPLY_SIGNALS.any (fun sig => pyIn sig (pyLower body)) then
          ⟨.ACTIVE, "apply button detected"⟩
        else ⟨.ACTIVE, "no closed signals found"⟩
    else ⟨.UNKNOWN, "HTTP " ++ toString code⟩

/-! ## The `cmd_run` filtering loop (`cli.py`, lines 166-216) -/

/-- A search result as produced by the search sources:
`{url, title, snippet}`. -/
structure RawSearchResult where
  url : String
  title : String
  snippet : String := ""
deriving Repr

/-- Embedding of `extractor.ExtractionResult` with its defaults; `blocked = true` means
the page was inaccessible and every other field carries its default. -/
structure ExtractionResult where
  title : String := ""
  company : String := ""
  location : String := ""
  description : String := ""
  date_posted : Option PyDate := none
  date_posted_confidence : DatePostedConfidence := .UNKNOWN
  apply_url : Option String := none
  employment_type : String := ""
  blocked : Bool := false
deriving Repr

/-- The `JobPosting(...)` construction inside `cmd_run`'s loop: the title
falls back to the search-result title when the extracted title is empty
(Python `ext.title or result.title`); every other field comes from the
extraction result, the URL from the search result. -/
def buildPosting (source_name : String) (r : RawSearchResult)
    (ext : ExtractionResult) : JobPosting :=
  JobPosting.make
    { title := if ext.title = "" then r.title else ext.title
      company := ext.company
      location := ext.location
      description := ext.description
      posting_url := r.url
      apply_url := ext.apply_url
      date_posted := ext.date_posted
      date_posted_confidence := ext.date_posted_confidence
      source := source_name }

/-- The per-result loop of `cmd_run`: extraction is modelled by pairing each
raw result with its extraction result; the loop applies, in order, the date
cutoff filter, the location filter, deduplication, categorization and the
category filter, accumulating the surviving postings.  An exception raised
by `is_new` (which is where `compute_hash`'s `AttributeError` surfaces)
aborts the run, exactly as an uncaught exception aborts `cmd_run`. -/
def cmdRunLoop (source_name : String) (loc_filter : LocationFilter)
    (cutoff : Option PyDate) (categories : List String)
    (seen : List String) :
    List (RawSearchResult × ExtractionResult) → Except String (List JobPosting)
  | [] => .ok []
  | (r, ext) :: rest =>
    let posting := buildPosting source_name r ext
    if dateCutoffExcludes cutoff posting then
      cmdRunLoop source_name loc_filter cutoff categories seen rest
    else if !loc_filter.matches posting then
      cmdRunLoop source_name loc_filter cutoff categories seen rest
    else
      match is_new seen posting with
      | .error e => .error e
      | .ok (isnew, seen1) =>
        if !isnew then
          cmdRunLoop source_name loc_filter cutoff categories seen1 rest
        else
          let category := categorize posting
          let posting1 := { posting with category := some category }
          if !categories.isEmpty && !(categories.contains category.value) then
            cmdRunLoop source_name loc_filter cutoff categories seen1 rest
          else
            match cmdRunLoop source_name loc_filter cutoff categories seen1 rest with
            | .error e => .error e
            | .ok out => .ok (posting1 :: out)

/-! ## Claim-side definitions and concrete instances -/

/-- The claim's reading of the classifier (C6): scan the categories in the
registry order data, product, design, finance, marketing, software; return
the first whose keyword list has a case-insensitive substring match against
the haystack; fall back to `other`. -/
def categorizeByRegistryOrder (p : JobPosting) : Category :=
  ((CATEGORY_KEYWORDS.find?
      (fun e => e.2.any (fun kw => pyIn kw (haystack p)))).map Prod.fst).getD
    Category.OTHER

/-- A posting whose location is the hybrid string "Remote / New York" (C5). -/
def remoteNYPosting : JobPosting :=
  JobPosting.make
    { title := "Software Intern", company := "Acme",
      location := "Remote / New York", posting_url := "https://example.com/1" }

/-- The registry-order regression posting of C6. -/
def productManagerPosting : JobPosting :=
  JobPosting.make
    { title := "Product Manager Intern", company := "Acme",
      location := "New York, NY", posting_url := "https://example.com/2" }

/-- A posting whose title ends in "real" and whose description begins with
"estate", so the negative keyword "real estate" only occurs across the
title/description boundary of `full_text` (C10). -/
def boundaryPosting : JobPosting :=
  JobPosting.make
    { title := "Software Engineer Intern Real", company := "Acme",
      location := "New York, NY",
      description := "Estate management using Python",
      posting_url := "https://example.com/3" }

/-- The same posting with the boundary match broken by one character (C10). -/
def boundaryAltPosting : JobPosting :=
  JobPosting.make
    { title := "Software Engineer Intern Real", company := "Acme",
      location := "New York, NY",
      description := "Xestate management using Python",
      posting_url := "https://example.com/3" }

/-- A generic sample posting, the one `tests/test_deduplication.py` builds:
title "Software Engineer Intern", company "Acme Corp", a concrete URL. -/
def samplePosting : JobPosting :=
  JobPosting.make
    { title := "Software Engineer Intern", company := "Acme Corp",
      location := "Remote", posting_url := "https://example.com/job/1" }

/-- C2 scenario: raw result whose extraction is blocked. -/
def c2Raw1 : RawSearchResult :=
  ⟨"https://indeed.com/job/1", "SW Intern", "Great internship at Acme."⟩

/-- C2 scenario: the blocked extraction result (all fields at defaults). -/
def c2Ext1 : ExtractionResult := { blocked := true }

/-- C2 scenario: raw result with structured extraction data. -/
def c2Raw2 : RawSearchResult :=
  ⟨"https://company.com/job/2", "Search Title 2", "snippet 2"⟩

/-- C2 scenario: structured extraction whose location matches the filter. -/
def c2Ext2 : ExtractionResult :=
  { title := "Extracted Title", company := "Extracted Co",
    location := "New York, NY", description := "Extracted description.",
    date_posted := some ⟨2024, 6, 1⟩, date_posted_confidence := .EXACT }

/-- C2 scenario: a duplicate of the second result by (title, company, url)
— same URL and same extraction, different search-result title. -/
def c2Raw3 : RawSearchResult :=
  ⟨"https://company.com/job/2", "Search Title 3", "snippet 3"⟩

/-- C2 scenario input: blocked, matching, duplicate-of-matching. -/
def c2Input : List (RawSearchResult × ExtractionResult) :=
  [(c2Raw1, c2Ext1), (c2Raw2, c2Ext2), (c2Raw3, c2Ext2)]

/-- C2 scenario: the active location filter ("New York", remote included). -/
def c2Filter : LocationFilter := ⟨["New York"], true⟩

/-- C2 scenario: the outcome of the `cmd_run` loop (exception or postings). -/
def c2Output : Except String (List JobPosting) :=
  cmdRunLoop "brave" c2Filter none [] [] c2Input

/-! ## Theorems -/

/-- C7: for every posting and every track, `score_track` returns a
non-negative integer (the result floors at zero), and the universal track
`Track.ALL` always scores exactly 1 regardless of the posting's content. -/
theorem score_track_nonneg_and_all_one :
    (∀ (p : JobPosting) (t : Track), 0 ≤ score_track p t)
      ∧ (∀ p : JobPosting, score_track p Track.ALL = 1) := by
  constructor
  · intro p t
    by_cases ht : t = Track.ALL
    · simp [score_track, ht]
    · simp only [score_track, if_neg ht]
      exact le_max_left 0 _
  · intro p
    rfl

/-- C4: the date cutoff filter of `cmd_run` excludes a posting exactly when
a cutoff is set, the date confidence is EXACT, a posting date is present,
and that date is strictly earlier than the cutoff; in every other
combination the posting passes through. -/
theorem date_cutoff_excludes_iff :
    ∀ (cutoff : Option PyDate) (p : JobPosting),
      dateCutoffExcludes cutoff p = true ↔
        ∃ c d, cutoff = some c ∧ p.date_posted = some d ∧
          p.date_posted_confidence = DatePostedConfidence.EXACT ∧
          pyDateLt d c = true := by
  intro cutoff p
  cases hc : cutoff <;> cases hd : p.date_posted <;>
    simp [dateCutoffExcludes, hc, hd, and_assoc]

/-- C9: after `JobPosting` construction, if "remote" occurs
case-insensitively in the posting's location then `is_remote` is true; and
an explicitly supplied `is_remote = true` is never turned false. -/
theorem make_remote_invariant :
    ∀ raw : JobPosting,
      (pyIn "remote" (pyLower (JobPosting.make raw).location) = true →
        (JobPosting.make raw).is_remote = true)
      ∧ (raw.is_remote = true → (JobPosting.make raw).is_remote = true) := by
  intro raw
  unfold JobPosting.make
  cases hrem : raw.is_remote
  · by_cases hin : pyIn "remote" (pyLower (pyStrip raw.location)) = true
    · simp [hrem, hin]
    · simp [hrem, hin]
  · simp [hrem]

/-- Witness for C9 at a concrete posting with location "Remote / New York". -/
theorem make_remote_invariant_witness :
    pyIn "remote"
        (pyLower (JobPosting.make
          { title := "SW Intern", company := "Acme",
            location := "Remote / New York",
            posting_url := "https://example.com/9" }).location) = true
      ∧ (JobPosting.make
          { title := "SW Intern", company := "Acme",
            location := "Remote / New York",
            posting_url := "https://example.com/9" }).is_remote = true :=
  ⟨by decide,
    (make_remote_invariant
      { title := "SW Intern", company := "Acme",
        location := "Remote / New York",
        posting_url := "https://example.com/9" }).1 (by decide)⟩

/-- C5: `LocationFilter.matches` returns the include-remote flag for remote
postings regardless of the allowed-locations list; for non-remote postings
an empty allowed list accepts everything, and otherwise acceptance holds iff
some allowed location is a case-insensitive substring of the location; the
hybrid posting "Remote / New York" passes whenever remote is included and is
excluded whenever it is not, whatever the allowed list contains. -/
theorem location_filter_matches_spec :
    (∀ (f : LocationFilter) (p : JobPosting),
        p.is_remote = true → f.matches p = f.include_remote)
    ∧ (∀ (f : LocationFilter) (p : JobPosting),
        p.is_remote = false → f.allowed_locations = [] → f.matches p = true)
    ∧ (∀ (f : LocationFilter) (p : JobPosting), p.is_remote = false →
        (f.matches p = true ↔ f.allowed_locations = [] ∨
          ∃ loc ∈ f.allowed_locations,
            pyIn (pyLower loc) (pyLower p.location) = true))
    ∧ (∀ al : List String,
        LocationFilter.matches ⟨al, true⟩ remoteNYPosting = true)
    ∧ (∀ al : List String,
        LocationFilter.matches ⟨al, false⟩ remoteNYPosting = false) := by
  have hrP : remoteNYPosting.is_remote = true := by decide
  refine ⟨?_, ?_, ?_, ?_, ?_⟩
  · intro f p hr
    simp [LocationFilter.matches, hr]
  · intro f p hr he
    simp [LocationFilter.matches, hr, he]
  · intro f p hr
    cases he : f.allowed_locations with
    | nil => simp [LocationFilter.matches, hr, he]
    | cons a as =>
      simp [LocationFilter.matches, hr, he, List.any_eq_true]
  · intro al
    simp [LocationFilter.matches, hrP]
  · intro al
    simp [LocationFilter.matches, hrP]

/-- Witness for C5: a remote posting under the default configuration. -/
theorem location_filter_matches_witness :
    remoteNYPosting.is_remote = true
      ∧ LocationFilter.matches ⟨[], true⟩ remoteNYPosting = true :=
  ⟨by decide,
    location_filter_matches_spec.1 ⟨[], true⟩ remoteNYPosting (by decide)⟩

/-- C3: `check_active` is total and never raises: transport exceptions map
to UNKNOWN (the spec's INDETERMINATE) with the error reason recorded; 404
and 410 map to INACTIVE with the code in the reason; 401, 403 and 429 map to
UNKNOWN; codes at or above 500 map to UNKNOWN; a 200 whose case-folded body
contains a closed-signal phrase maps to INACTIVE naming the first matching
phrase in list order; a 200 with no closed signal maps to ACTIVE with
"apply button detected" when an apply signal is present and
"no closed signals found" otherwise; and every other status maps to UNKNOWN
with the code in the reason. -/
theorem check_active_spec :
    check_active HttpOutcome.timeout
        = ⟨ActiveStatus.UNKNOWN, "request timed out"⟩
    ∧ (∀ msg, check_active (HttpOutcome.reqError msg)
        = ⟨ActiveStatus.UNKNOWN, "request failed: " ++ msg⟩)
    ∧ (∀ code body, code = 404 ∨ code = 410 →
        check_active (HttpOutcome.response code body)
          = ⟨ActiveStatus.INACTIVE, "HTTP " ++ toString code⟩)
    ∧ (∀ code body, code = 401 ∨ code = 403 ∨ code = 429 →
        (check_active (HttpOutcome.response code body)).status
          = ActiveStatus.UNKNOWN)
    ∧ (∀ code body, 500 ≤ code →
        (check_active (HttpOutcome.response code body)).status
          = ActiveStatus.UNKNOWN)
    ∧ (∀ body sig,
        CLOSED_SIGNALS.find? (fun s => pyIn s (pyLower body)) = some sig →
        check_active (HttpOutcome.response 200 body)
          = ⟨ActiveStatus.INACTIVE, "closed signal: \x27" ++ sig ++ "\x27"⟩)
    ∧ (∀ body,
        CLOSED_SIGNALS.find? (fun s => pyIn s (pyLower body)) = none →
        check_active (HttpOutcome.response 200 body)
          = ⟨ActiveStatus.ACTIVE,
              if APPLY_SIGNALS.any (fun s => pyIn s (pyLower body)) then
                "apply button detected"
              else "no closed signals found"⟩)
    ∧ (∀ code body, code ∉ [404, 410] → code ∉ [401, 403, 429] →
        code < 500 → code ≠ 200 →
        check_active (HttpOutcome.response code body)
          = ⟨ActiveStatus.UNKNOWN, "HTTP " ++ toString code⟩) := by
  refine ⟨rfl, fun msg => rfl, ?_, ?_, ?_, ?_, ?_, ?_⟩
  · intro code body h
    rcases h with rfl | rfl <;> rfl
  · intro code body h
    rcases h with rfl | rfl | rfl <;> rfl
  · intro code body h
    have h1 : code ∉ [404, 410] := by simp; omega
    have h2 : code ∉ [401, 403, 429] := by simp; omega
    simp [check_active, h1, h2, h]
  · intro body sig h
    simp [check_active, h]
  · intro body h
    simp [check_active, h]
    split <;> rfl
  · intro code body h1 h2 h3 h4
    have h5 : ¬ 500 ≤ code := by omega
    simp [check_active, h1, h2, h3, h4, h5]

/-- Witness for C3: a concrete 404 response is INACTIVE with the code in the
reason. -/
theorem check_active_spec_witness :
    ((404 : Nat) = 404 ∨ (404 : Nat) = 410)
      ∧ check_active (HttpOutcome.response 404 "gone")
          = ⟨ActiveStatus.INACTIVE, "HTTP " ++ toString (404 : Nat)⟩ :=
  ⟨Or.inl rfl, check_active_spec.2.2.1 404 "gone" (Or.inl rfl)⟩

/-- The ordered scan of `categorize` is the first-match search over the
registry: helper for C6. -/
theorem scanCategories_eq_find :
    ∀ (l : List (Category × List String)) (hay : String),
      scanCategories hay l =
        ((l.find? (fun e => e.2.any (fun kw => pyIn kw hay))).map
          Prod.fst).getD Category.OTHER := by
  intro l
  induction l with
  | nil => intro hay; rfl
  | cons e rest ih =>
    intro hay
    cases he : e.2.any (fun kw => pyIn kw hay) with
    | false =>
      obtain ⟨c, kws⟩ := e
      simp only at he
      simp [scanCategories, List.find?, he, ih hay]
    | true =>
      obtain ⟨c, kws⟩ := e
      simp only at he
      simp [scanCategories, List.find?, he]

/-- C6: `categorize` is total and deterministic, equal to the first-match
scan over the registry in order data, product, design, finance, marketing,
software with fallback `other`; the registry's category order is exactly
that list; and "Product Manager Intern" is classified as the product
category. -/
theorem categorize_registry_order :
    (∀ p : JobPosting, categorize p = categorizeByRegistryOrder p)
    ∧ CATEGORY_KEYWORDS.map Prod.fst =
        [Category.DATA, Category.PRODUCT, Category.DESIGN, Category.FINANCE,
         Category.MARKETING, Category.SOFTWARE]
    ∧ categorize productManagerPosting = Category.PRODUCT := by
  refine ⟨?_, by decide, by decide⟩
  intro p
  exact scanCategories_eq_find CATEGORY_KEYWORDS (haystack p)

/-- C10: in `score_track` the negative keywords are matched against
`full_text`, the lower-cased title joined to the lower-cased description by
a single space; for `boundaryPosting` no negative keyword occurs in the
title alone or in the description alone, yet exactly one negative keyword
("real estate") occurs in `full_text`, spanning the title/description
boundary, and the SWE score is 8 — three points (one penalty) below the 11
scored by the variant whose description breaks the boundary. -/
theorem negative_keyword_spans_boundary :
    (NEGATIVE_KEYWORDS.all
        (fun kw => !(pyIn kw (pyLower boundaryPosting.title))
          && !(pyIn kw (pyLower boundaryPosting.description)))) = true
    ∧ (NEGATIVE_KEYWORDS.countP
        (fun kw => pyIn kw (fullText boundaryPosting))) = 1
    ∧ score_track boundaryPosting Track.SWE = 8
    ∧ score_track boundaryAltPosting Track.SWE = 11 :=
  ⟨by decide, by decide, by decide, by decide⟩

/-- C8: contrary to the claim, `filter_new` cannot be applied twice — or
even once — to any non-empty list: its first `is_new` call evaluates
`compute_hash`, whose `posting.url` read raises `AttributeError` (the
model's field is `posting_url`), so the call raises instead of returning a
list; only the empty list returns (empty, unchanged state).  Evaluated at
the dedup tests' sample posting. -/
theorem filter_new_attribute_error :
    (∀ (seen : List String) (p : JobPosting) (ps : List JobPosting),
        filter_new seen (p :: ps) = Except.error urlAttributeError)
    ∧ (∀ seen : List String, filter_new seen [] = Except.ok ([], seen))
    ∧ filter_new [] [samplePosting] = Except.error urlAttributeError :=
  ⟨fun _ _ _ => rfl, fun _ => rfl, rfl⟩

/-- C1: contrary to the claim, `compute_hash` never returns a digest: it
reads `posting.url`, an attribute `JobPosting` does not declare (the
model's URL field is `posting_url`), so it raises `AttributeError` for
every posting — in particular at the sample posting the dedup tests build. -/
theorem compute_hash_attribute_error :
    (∀ p : JobPosting, compute_hash p = Except.error urlAttributeError)
    ∧ compute_hash samplePosting = Except.error urlAttributeError :=
  ⟨fun _ => rfl, rfl⟩

/-- C2: evaluating the `cmd_run` loop at the claim's three-result scenario
(one blocked extraction, one structured result whose location matches the
active filter, one duplicate of the second by (title, company, url)): the
blocked posting is built with empty company, location and description (no
"Unknown"/snippet fallback) and the active location filter drops it rather
than being bypassed; the surviving second result then reaches
`dup_filter.is_new`, where `compute_hash`'s `posting.url` read raises
`AttributeError` — the run aborts with that exception and outputs nothing,
not the two postings the claim describes. -/
theorem cmd_run_blocked_posting_dropped :
    c2Output = Except.error urlAttributeError
    ∧ (buildPosting "brave" c2Raw1 c2Ext1).company = ""
    ∧ (buildPosting "brave" c2Raw1 c2Ext1).location = ""
    ∧ (buildPosting "brave" c2Raw1 c2Ext1).description = ""
    ∧ c2Filter.matches (buildPosting "brave" c2Raw1 c2Ext1) = false
    ∧ c2Filter.matches (buildPosting "brave" c2Raw2 c2Ext2) = true :=
  ⟨rfl, by decide, by decide, by decide, by decide, by decide⟩


end InternshipEngine

